import Mathlib

/-!
Shallow embedding of the PES canteen payment backend (Express + Firestore +
PhonePe). The repository contains several variants of the same server; the
claims cite, and this file embeds, the relevant handlers of:

from src/server.js, first document (serverA below):
the OAuth token cache getAccessToken (lines 104-126, no safety margin),
the POST /api/create-order handler (lines 131-224) and the
POST /api/webhook handler (lines 229-254);

from src/server.js, second document (serverB below):
getAccessToken (lines 344-379, 60 second safety margin);

from src/backend/server.js: the signature-verifying POST /api/webhook
handler (lines 95-120) and the unvalidated POST /api/create-order handler
(lines 39-91);

from src/unnamed/part_005: the X-VERIFY checking webhook (lines 146-181);
from src/unnamed/part_006: the webhook with its success-or-failed status
mapping (lines 172-190).

JavaScript values are embedded as follows: a possibly absent field is an
Option; string truthiness (undefined and the empty string are falsy) and
number truthiness (undefined and 0 are falsy) are explicit functions;
Math.round over JS numbers is modelled over the rationals; Date.now() is a
parameter `now`; every network interaction (axios / the PhonePe SDK) is a
parameter carrying the provider response, and whether such a call was
issued is recorded in the result. The Firestore collection is an
association list keyed by order id; doc(k).set replaces or creates the
record, and doc(k).update on a missing document rejects, which the
handlers catch and answer with HTTP 500.
-/

namespace Pes

/-- Truthiness of an optional JS string: undefined and the empty string are
falsy. -/
def truthyS : Option String → Bool
  | none => false
  | some s => !(s == ("" : String))

/-- Truthiness of an optional JS number (NaN is outside the model):
undefined and 0 are falsy. -/
def truthyQ : Option ℚ → Bool
  | none => false
  | some q => !(q == 0)

/-- Truthiness of an optional JS integer: undefined and 0 are falsy. -/
def truthyZ : Option ℤ → Bool
  | none => false
  | some z => !(z == 0)

/-- Embedding of the JS expression `a || b` on optional strings. -/
def jsOrS (a b : Option String) : Option String :=
  if truthyS a then a else b

/-- Embedding of the JS expression `a || d` where a is an optional integer
and d a default: the default is taken when a is absent or 0. -/
def jsOrZ (a : Option ℤ) (d : ℤ) : ℤ :=
  if truthyZ a then a.getD 0 else d

/-- Math.round: rounds half toward positive infinity. -/
def jsRound (q : ℚ) : ℤ := Int.floor (q + 1/2)

/-- Webhook request body as the handlers read it. Each field the handlers
access is optional; `data...` fields stand for the optional-chained reads
through `payload.data`. -/
structure Payload where
  code : Option String := none
  status : Option String := none
  merchantOrderId : Option String := none
  dataMerchantOrderId : Option String := none
  merchantTransactionId : Option String := none
  dataMerchantTransactionId : Option String := none
  dataState : Option String := none
  deriving DecidableEq, Repr

/-- Persisted order record: the fields the handlers write to the `orders`
collection. -/
structure OrderRec where
  merchantOrderId : String
  items : Option (List String) := none
  table : Option String := none
  sessionId : Option String := none
  amount : ℚ
  status : String
  phonepeCallback : Option Payload := none
  deriving DecidableEq, Repr

/-- Firestore `orders` collection as an association list keyed by order id. -/
def OrderStore : Type := List (String × OrderRec)

instance : DecidableEq OrderStore := by
  unfold OrderStore
  infer_instance

/-- Read of a document by id. -/
def lookupOrder : OrderStore → String → Option OrderRec
  | [], _ => none
  | (k, r) :: rest, key => if k == key then some r else lookupOrder rest key

/-- doc(k).set : creates or replaces the record at k. -/
def setOrder (s : OrderStore) (k : String) (r : OrderRec) : OrderStore :=
  (k, r) :: s.filter (fun p => !(p.1 == k))

/-- doc(k).update : rewrites the record at k through f, and rejects (none)
when no document with id k exists — the Firestore behaviour the webhook
handlers rely on. -/
def updateOrder (s : OrderStore) (k : String) (f : OrderRec → OrderRec) :
    Option OrderStore :=
  match lookupOrder s k with
  | none => none
  | some r => some (setOrder s k (f r))

/-- HTTP outcome of a webhook request together with the store it leaves
behind. -/
structure WebhookResult where
  httpStatus : Nat
  store : OrderStore
  deriving DecidableEq

/-- Status mapping of the serverA webhook handler (src/server.js lines
237-239): PAYMENT_SUCCESS or SUCCESS maps to SUCCESS, PAYMENT_ERROR or
FAILED maps to FAILED, anything else stays PENDING. -/
def webhookStatus (p : Payload) : String :=
  if p.code == some ("PAYMENT_SUCCESS") || p.status == some ("SUCCESS") then ("SUCCESS")
  else if p.code == some ("PAYMENT_ERROR") || p.status == some ("FAILED") then ("FAILED")
  else ("PENDING")

/-- Order id extraction of the serverA webhook handler:
`payload.data?.merchantOrderId || payload.merchantOrderId`. -/
def extractOrderIdA (p : Payload) : Option String :=
  jsOrS p.dataMerchantOrderId p.merchantOrderId

/-- POST /api/webhook of serverA (src/server.js lines 229-254): a falsy
order id answers 400; otherwise doc(orderId).update writes the mapped
status and records the raw payload; the update of a missing document
rejects and the catch block answers 500. -/
def webhookA (store : OrderStore) (p : Payload) : WebhookResult :=
  let oid? := extractOrderIdA p
  if truthyS oid? then
    match updateOrder store (oid?.getD ("")) (fun r =>
        { r with status := webhookStatus p, phonepeCallback := some p }) with
    | some s2 => ⟨200, s2⟩
    | none => ⟨500, store⟩
  else ⟨400, store⟩

/-- Iterated delivery of one webhook payload: each delivery runs the
serverA handler on the store the previous delivery left. -/
def applyWebhookN : Nat → OrderStore → Payload → OrderStore
  | 0, s, _ => s
  | n + 1, s, p => applyWebhookN n (webhookA s p).store p

/-- POST /api/webhook of src/backend/server.js (lines 95-120). The
signPayload helper (HMAC-SHA256 of the re-serialized JSON body under the
merchant secret) is abstracted as the function argument `sign`; the
handler compares the x-signature header against sign of the parsed body
and answers 400 on mismatch, before any store access. On a match it reads
`payload.merchantOrderId` (a missing id makes doc() reject, caught as 500)
and writes `payload.status || "unknown"` unconditionally. -/
def webhookBackend (sign : Payload → String) (store : OrderStore)
    (signatureHeader : Option String) (p : Payload) : WebhookResult :=
  if !(signatureHeader == some (sign p)) then ⟨400, store⟩
  else
    match p.merchantOrderId with
    | none => ⟨500, store⟩
    | some oid =>
      match updateOrder store oid (fun r =>
          { r with status := (if truthyS p.status then p.status.getD ("") else ("unknown")),
                   phonepeCallback := some p }) with
      | some s2 => ⟨200, s2⟩
      | none => ⟨500, store⟩

/-- POST /api/webhook of src/unnamed/part_005 (lines 146-181). The body
carries a base64 envelope `response`; the expected X-VERIFY value is
sha256(base64Response + SALT_KEY) + "###" + SALT_INDEX, with sha256
abstracted as an argument; a mismatch answers 401 before any store
access. On a match the envelope is decoded (argument `decode` standing
for Buffer.from + JSON.parse; a decode failure is caught as 500) and
`payload.data.merchantTransactionId` keys an unconditional update (a
missing data object or a missing document is caught as 500). -/
def webhook005 (sha256 : String → String) (decode : String → Option Payload)
    (saltKey saltIndex : String) (store : OrderStore)
    (responseB64 : String) (xVerify : Option String) : WebhookResult :=
  let expected := sha256 (responseB64 ++ saltKey) ++ ("###") ++ saltIndex
  if !(xVerify == some expected) then ⟨401, store⟩
  else
    match decode responseB64 with
    | none => ⟨500, store⟩
    | some p =>
      match p.dataMerchantTransactionId with
      | none => ⟨500, store⟩
      | some oid =>
        match updateOrder store oid (fun r =>
            { r with status := (if p.code == some ("PAYMENT_SUCCESS") then ("SUCCESS") else ("FAILED")),
                     phonepeCallback := some p }) with
        | some s2 => ⟨200, s2⟩
        | none => ⟨500, store⟩

/-- Status mapping of the part_006 webhook (src/unnamed/part_006 line 176):
PAYMENT_SUCCESS maps to SUCCESS and every other payload to FAILED. -/
def webhookStatus006 (p : Payload) : String :=
  if p.code == some ("PAYMENT_SUCCESS") then ("SUCCESS") else ("FAILED")

/-- Status mapping of the part_003 webhook (src/unnamed/part_003 lines
165-169): PAYMENT_SUCCESS or data.state COMPLETED maps to SUCCESS and
every other payload to FAILED. -/
def webhookStatus003 (p : Payload) : String :=
  if p.code == some ("PAYMENT_SUCCESS") || p.dataState == some ("COMPLETED")
  then ("SUCCESS") else ("FAILED")

/-- POST /api/webhook of src/unnamed/part_006 (lines 172-190): the order id
is `payload.data?.merchantTransactionId || payload.merchantTransactionId`;
when it is falsy the handler skips the store entirely and still answers
200 OK. -/
def webhook006 (store : OrderStore) (p : Payload) : WebhookResult :=
  let oid? := jsOrS p.dataMerchantTransactionId p.merchantTransactionId
  if truthyS oid? then
    match updateOrder store (oid?.getD ("")) (fun r =>
        { r with status := webhookStatus006 p, phonepeCallback := some p }) with
    | some s2 => ⟨200, s2⟩
    | none => ⟨500, store⟩
  else ⟨200, store⟩

/-- Request body of POST /api/create-order as the handlers destructure it. -/
structure CreateReq where
  items : Option (List String) := none
  total : Option ℚ := none
  table : Option String := none
  sessionId : Option String := none
  deriving DecidableEq

/-- Provider response to the pay call, reduced to the one field the
handlers inspect: the checkout URL (response.data?.url or
response.data?.instrumentResponse?.redirectInfo?.url). -/
structure ProviderResp where
  checkoutUrl : Option String
  deriving DecidableEq

/-- Outcome of the network pay call: a response, or a thrown error
(timeout, non-2xx, SDK failure). -/
inductive ProviderOutcome where
  | ok (resp : ProviderResp)
  | err
  deriving DecidableEq

/-- Result of a create-order request: its HTTP status, whether a pay call
to the provider was issued, the `amount` field (in paise) of the payload
sent when one was, the store left behind and the order id answered on
success. -/
structure CreateResult where
  httpStatus : Nat
  providerCalled : Bool
  amountSent : Option ℤ
  store : OrderStore
  orderId : Option String
  deriving DecidableEq

/-- POST /api/create-order of serverA (src/server.js lines 131-224): the
guard `!items || !total || total <= 0` answers 400 before any provider or
store access; otherwise the pay call is issued with
amount = Math.round(total * 100); a thrown pay call is caught as 500 with
nothing stored; on a response the record is stored with status PENDING
and amount = total, after which a missing checkout URL throws (caught as
500, the record stays) and otherwise the handler answers 200 with the
order id PES + Date.now(). -/
def createOrderA (now : ℤ) (provider : ProviderOutcome) (store : OrderStore)
    (req : CreateReq) : CreateResult :=
  if !req.items.isSome || !truthyQ req.total || decide (req.total.getD 0 ≤ 0) then
    ⟨400, false, none, store, none⟩
  else
    let total := req.total.getD 0
    let orderId := ("PES") ++ toString now
    let amountPaise := jsRound (total * 100)
    match provider with
    | .err => ⟨500, true, some amountPaise, store, none⟩
    | .ok resp =>
      let store2 := setOrder store orderId
        { merchantOrderId := orderId, items := req.items, table := req.table,
          sessionId := req.sessionId, amount := total, status := ("PENDING"),
          phonepeCallback := none }
      match resp.checkoutUrl with
      | none => ⟨500, true, some amountPaise, store2, none⟩
      | some _ => ⟨200, true, some amountPaise, store2, some orderId⟩

/-- POST /api/create-order of src/backend/server.js (lines 39-91): no
validation at all — the pay call is issued for every body, with
amount = Math.round(total * 100). The body total is modelled as a present
rational (NaN arithmetic from an absent total is outside the model). A
thrown pay call is caught as 500 with nothing stored; on a response the
record is stored with status "created" and the handler answers 200. -/
def createOrderBackend (now : ℤ) (provider : ProviderOutcome)
    (store : OrderStore) (items : Option (List String)) (total : ℚ)
    (table sessionId : Option String) : CreateResult :=
  let orderId := ("PES-") ++ toString now
  let amountPaise := jsRound (total * 100)
  match provider with
  | .err => ⟨500, true, some amountPaise, store, none⟩
  | .ok _ =>
    let store2 := setOrder store orderId
      { merchantOrderId := orderId, items := items, table := table,
        sessionId := sessionId, amount := total, status := ("created"),
        phonepeCallback := none }
    ⟨200, true, some amountPaise, store2, some orderId⟩

/-- Module-level token cache shared by all callers: the variables
accessToken and tokenExpiry. -/
structure TokenCache where
  accessToken : Option String
  tokenExpiry : Option ℤ
  deriving DecidableEq

/-- Body of a successful OAuth token response, reduced to the fields the
code reads. -/
structure AuthResp where
  access_token : String
  expires_in : Option ℤ
  deriving DecidableEq

/-- Outcome of the credential-exchange network call. -/
inductive AuthOutcome where
  | ok (r : AuthResp)
  | err
  deriving DecidableEq

/-- Result of one getAccessToken call: the token returned (none when the
function threw), the cache left behind, and whether a credential-exchange
network call was issued. -/
structure TokenResult where
  token : Option String
  cache : TokenCache
  networkCall : Bool
  deriving DecidableEq

/-- Cache-hit guard shared by every getAccessToken variant:
`accessToken && tokenExpiry && Date.now() < tokenExpiry`. -/
def cacheValid (c : TokenCache) (now : ℤ) : Bool :=
  truthyS c.accessToken && truthyZ c.tokenExpiry && decide (now < c.tokenExpiry.getD 0)

/-- getAccessToken of serverA (src/server.js lines 104-126): a valid cache
answers the cached token with no network call; otherwise the exchange is
issued and, on success, the cache is set to the new token with expiry
Date.now() + (expires_in || 3600) * 1000 — with no safety margin. A
thrown exchange leaves the cache untouched. -/
def getAccessTokenA (c : TokenCache) (now : ℤ) (auth : AuthOutcome) : TokenResult :=
  if cacheValid c now then ⟨c.accessToken, c, false⟩
  else
    match auth with
    | .err => ⟨none, c, true⟩
    | .ok r =>
      let expiry := now + jsOrZ r.expires_in 3600 * 1000
      ⟨some r.access_token, ⟨some r.access_token, some expiry⟩, true⟩

/-- getAccessToken of serverB (src/server.js lines 344-379): same hit path;
on a refresh the response must carry a truthy access_token (otherwise the
function throws with the cache untouched) and the cache is set with
expiry Date.now() + expiresIn * 1000 - 60000, a 60 second safety margin. -/
def getAccessTokenB (c : TokenCache) (now : ℤ) (auth : AuthOutcome) : TokenResult :=
  if cacheValid c now then ⟨c.accessToken, c, false⟩
  else
    match auth with
    | .err => ⟨none, c, true⟩
    | .ok r =>
      if r.access_token == ("" : String) then ⟨none, c, true⟩
      else
        let expiry := now + jsOrZ r.expires_in 3600 * 1000 - 60000
        ⟨some r.access_token, ⟨some r.access_token, some expiry⟩, true⟩

/-- Event-loop position of one caller of getAccessToken: it is about to run
the synchronous prefix, or it is suspended awaiting the exchange response,
or it has returned a token. -/
inductive CallerPC where
  | start
  | awaiting
  | done (tok : String)
  deriving DecidableEq

/-- Interleaved execution state of two concurrent callers of
getAccessTokenB sharing the module-level cache, counting issued
credential-exchange calls. -/
structure TwoCallerState where
  cache : TokenCache
  pc0 : CallerPC
  pc1 : CallerPC
  networkCalls : Nat
  deriving DecidableEq

/-- One event-loop step of a caller of getAccessTokenB: from start it runs
the synchronous cache check uninterrupted — a hit returns the cached
token, a miss issues the exchange and suspends at the await; a suspended
caller receives the response resp, writes the shared cache and returns.
Nothing in the code prevents the second caller from running its check
while the first is suspended. -/
def stepCaller (now : ℤ) (resp : AuthResp) (pc : CallerPC) (cache : TokenCache)
    (calls : Nat) : CallerPC × TokenCache × Nat :=
  match pc with
  | .start =>
    if cacheValid cache now then (.done (cache.accessToken.getD ("")), cache, calls)
    else (.awaiting, cache, calls + 1)
  | .awaiting =>
    let expiry := now + jsOrZ resp.expires_in 3600 * 1000 - 60000
    (.done resp.access_token, ⟨some resp.access_token, some expiry⟩, calls)
  | .done t => (.done t, cache, calls)

/-- Run of an interleaving schedule over the two callers: false schedules a
step of caller 0, true a step of caller 1. -/
def runSched (now : ℤ) (resp : AuthResp) : List Bool → TwoCallerState → TwoCallerState
  | [], s => s
  | true :: rest, s =>
    let r := stepCaller now resp s.pc1 s.cache s.networkCalls
    runSched now resp rest ⟨r.2.1, s.pc0, r.1, r.2.2⟩
  | false :: rest, s =>
    let r := stepCaller now resp s.pc0 s.cache s.networkCalls
    runSched now resp rest ⟨r.2.1, r.1, s.pc1, r.2.2⟩

/-- Two callers at their start, an empty cache, no exchange issued yet. -/
def twoCallerInit : TwoCallerState := ⟨⟨none, none⟩, .start, .start, 0⟩

/-! Concrete fixtures used by witnesses and counterexamples. -/

/-- Stored order already in the terminal status SUCCESS. -/
def r0 : OrderRec :=
  { merchantOrderId := ("PES1"), items := some [("tea")], table := some ("T1"),
    sessionId := some ("s1"), amount := 150, status := ("SUCCESS"),
    phonepeCallback := none }

/-- Store holding only r0 under its id. -/
def store0 : OrderStore := [(("PES1"), r0)]

/-- Delayed failure observation for the order of store0. -/
def pFail : Payload := { code := some ("PAYMENT_ERROR"), merchantOrderId := some ("PES1") }

/-- Webhook payload naming an order id the store has no record of. -/
def pUnk : Payload := { merchantOrderId := some ("PESX") }

/-- Webhook payload with a processing code that is neither an explicit
success nor an explicit failure. -/
def pPend : Payload := { code := some ("PAYMENT_PENDING"), merchantOrderId := some ("PES1") }

/-- Concrete stand-in for the HMAC signing function. -/
def sig0 : Payload → String := fun _ => ("SIG")

/-! Helper lemmas about the store. -/

theorem lookup_setOrder_self (s : OrderStore) (k : String) (r : OrderRec) :
    lookupOrder (setOrder s k r) k = some r := by
  simp [setOrder, lookupOrder]

theorem filter_self_idem {α : Type} (f : α → Bool) (l : List α) :
    (l.filter f).filter f = l.filter f := by
  induction l with
  | nil => rfl
  | cons a t ih => cases h : f a <;> simp [List.filter_cons, h, ih]

theorem setOrder_setOrder (s : OrderStore) (k : String) (a b : OrderRec) :
    setOrder (setOrder s k a) k b = setOrder s k b := by
  simp [setOrder, List.filter_cons, filter_self_idem]

/-- Unfolding of the serverA webhook on a known order: the update commits
the mapped status and the raw payload. -/
theorem webhookA_known (store : OrderStore) (p : Payload) (oid : String)
    (r : OrderRec) (h1 : extractOrderIdA p = some oid) (h2 : oid ≠ ("" : String))
    (h3 : lookupOrder store oid = some r) :
    webhookA store p =
      ⟨200, setOrder store oid
        { r with status := webhookStatus p, phonepeCallback := some p }⟩ := by
  have hb : (oid == ("" : String)) = false := by simpa using h2
  simp [webhookA, h1, truthyS, hb, updateOrder, h3]

/-- Unfolding of the serverA webhook when no order id is extracted. -/
theorem webhookA_noid (store : OrderStore) (p : Payload)
    (h : truthyS (extractOrderIdA p) = false) :
    webhookA store p = ⟨400, store⟩ := by
  simp [webhookA, h]

/-- Unfolding of the serverA webhook on an unknown order id: the Firestore
update rejects and the handler answers 500 with the store untouched. -/
theorem webhookA_missing (store : OrderStore) (p : Payload) (oid : String)
    (h1 : extractOrderIdA p = some oid) (h2 : oid ≠ ("" : String))
    (h3 : lookupOrder store oid = none) :
    webhookA store p = ⟨500, store⟩ := by
  have hb : (oid == ("" : String)) = false := by simpa using h2
  simp [webhookA, h1, truthyS, hb, updateOrder, h3]

/-! Claim C1. -/

/-- C1 counterexample: the order of store0 is persisted as SUCCESS, yet
processing a later observation that maps to FAILED leaves the persisted
status FAILED — the terminal status is overwritten, refuting the claim
that it is left unchanged. -/
theorem webhookA_flips_success_cx :
    (lookupOrder store0 ("PES1")).map (fun r => r.status) = some ("SUCCESS") ∧
    (lookupOrder (webhookA store0 pFail).store ("PES1")).map (fun r => r.status)
      = some ("FAILED") := by
  decide

/-- C1 amended: terminal states are not write-once — for every persisted
order, whatever its current status (including SUCCESS and FAILED),
processing a webhook observation overwrites the persisted status with the
observation's mapped status (last write wins) and records the raw
observation in phonepeCallback. -/
theorem webhookA_last_observation_wins (store : OrderStore) (p : Payload)
    (oid : String) (r : OrderRec) (h1 : extractOrderIdA p = some oid)
    (h2 : oid ≠ ("" : String)) (h3 : lookupOrder store oid = some r) :
    lookupOrder (webhookA store p).store oid =
      some { r with status := webhookStatus p, phonepeCallback := some p } := by
  rw [webhookA_known store p oid r h1 h2 h3]
  exact lookup_setOrder_self store oid _

/-- C1 witness: the amended theorem applied to the SUCCESS order of store0
and the delayed FAILED observation pFail. -/
theorem webhookA_last_observation_wins_witness :
    lookupOrder (webhookA store0 pFail).store ("PES1") =
      some { r0 with status := webhookStatus pFail, phonepeCallback := some pFail } :=
  webhookA_last_observation_wins store0 pFail ("PES1") r0 (by decide) (by decide) (by decide)

/-! Claim C2. -/

/-- C2 counterexample: in the signature-verifying webhook handler of
src/backend/server.js, a request whose x-signature header does not match
the expected signature is answered with HTTP 400 — not 401 as the claim
states — while the store is left untouched. -/
theorem webhookBackend_signature_400_cx :
    (webhookBackend sig0 [] (some ("WRONG")) {}).httpStatus = 400 ∧
    (webhookBackend sig0 [] (some ("WRONG")) {}).httpStatus ≠ 401 ∧
    (webhookBackend sig0 [] (some ("WRONG")) {}).store = ([] : OrderStore) := by
  decide

/-- C2 amended: a webhook whose signature fails verification is rejected
before any store access with zero state mutation, with HTTP 400 in
src/backend/server.js (whose HMAC is computed over the re-serialized
parsed body) and HTTP 401 in the part_005 variant. -/
theorem webhook_signature_failure_rejected :
    (∀ (sign : Payload → String) (store : OrderStore) (hdr : Option String)
        (p : Payload), hdr ≠ some (sign p) →
        webhookBackend sign store hdr p = ⟨400, store⟩) ∧
    (∀ (sha : String → String) (decode : String → Option Payload)
        (saltKey saltIndex : String) (store : OrderStore) (b : String)
        (v : Option String),
        v ≠ some (sha (b ++ saltKey) ++ ("###") ++ saltIndex) →
        webhook005 sha decode saltKey saltIndex store b v = ⟨401, store⟩) := by
  constructor
  · intro sign store hdr p h
    have hb : (hdr == some (sign p)) = false := by simpa using h
    simp [webhookBackend, hb]
  · intro sha decode saltKey saltIndex store b v h
    have hb : (v == some (sha (b ++ saltKey) ++ ("###") ++ saltIndex)) = false := by
      simpa using h
    simp [webhook005, hb]

/-- C2 witness: both rejection paths at concrete inputs — a wrong header
against the sig0 signer, and an absent X-VERIFY header in the part_005
variant. -/
theorem webhook_signature_failure_rejected_witness :
    webhookBackend sig0 [] (some ("NO")) {} = ⟨400, []⟩ ∧
    webhook005 (fun s => s) (fun _ => none) ("K") ("1") [] ("B") none = ⟨401, []⟩ :=
  ⟨webhook_signature_failure_rejected.1 sig0 [] (some ("NO")) {} (by decide),
   webhook_signature_failure_rejected.2 (fun s => s) (fun _ => none) ("K") ("1") []
     ("B") none (by decide)⟩

/-! Claim C3. -/

/-- C3 counterexample: in the part_006 and part_003 webhook variants a
processing code that is neither an explicit success nor an explicit
failure is mapped to FAILED, not to PENDING as the claim states. -/
theorem variant_pending_maps_to_failed_cx :
    webhookStatus006 pPend = ("FAILED") ∧ webhookStatus006 pPend ≠ ("PENDING") ∧
    webhookStatus003 pPend = ("FAILED") := by
  decide

/-- C3 amended: each variant's mapping is a deterministic total function.
In the serverA handler a success code or state maps to SUCCESS, an
explicit failure code maps to FAILED, and every other payload maps to
PENDING, producing no status change when the order is already PENDING; in
the part_006 variant every payload whose code is not PAYMENT_SUCCESS, and
in the part_003 variant every payload with neither code PAYMENT_SUCCESS
nor data.state COMPLETED, maps to FAILED, including processing and
pending codes. -/
theorem statusMapping_by_variant :
    (∀ p : Payload, (p.code == some ("PAYMENT_SUCCESS") || p.status == some ("SUCCESS")) = true →
      webhookStatus p = ("SUCCESS")) ∧
    (∀ p : Payload, (p.code == some ("PAYMENT_SUCCESS") || p.status == some ("SUCCESS")) = false →
      (p.code == some ("PAYMENT_ERROR") || p.status == some ("FAILED")) = true →
      webhookStatus p = ("FAILED")) ∧
    (∀ p : Payload, (p.code == some ("PAYMENT_SUCCESS") || p.status == some ("SUCCESS")) = false →
      (p.code == some ("PAYMENT_ERROR") || p.status == some ("FAILED")) = false →
      webhookStatus p = ("PENDING")) ∧
    (∀ (store : OrderStore) (p : Payload) (oid : String) (r : OrderRec),
      extractOrderIdA p = some oid → oid ≠ ("" : String) →
      lookupOrder store oid = some r → r.status = ("PENDING") →
      webhookStatus p = ("PENDING") →
      (lookupOrder (webhookA store p).store oid).map (fun x => x.status)
        = some ("PENDING")) ∧
    (∀ p : Payload, (p.code == some ("PAYMENT_SUCCESS")) = false →
      webhookStatus006 p = ("FAILED")) ∧
    (∀ p : Payload,
      (p.code == some ("PAYMENT_SUCCESS") || p.dataState == some ("COMPLETED")) = false →
      webhookStatus003 p = ("FAILED")) := by
  refine ⟨?_, ?_, ?_, ?_, ?_, ?_⟩
  · intro p h; simp [webhookStatus, h]
  · intro p h1 h2; simp [webhookStatus, h1, h2]
  · intro p h1 h2; simp [webhookStatus, h1, h2]
  · intro store p oid r h1 h2 h3 _ h5
    rw [webhookA_known store p oid r h1 h2 h3, lookup_setOrder_self]
    simp [h5]
  · intro p h; simp [webhookStatus006, h]
  · intro p h; simp [webhookStatus003, h]

/-- C3 witness: the serverA mapping at a success, a failure and a pending
payload, the no-op on an already PENDING order, and the part_006 and
part_003 mappings at a non-success payload. -/
theorem statusMapping_by_variant_witness :
    webhookStatus { code := some ("PAYMENT_SUCCESS") } = ("SUCCESS") ∧
    webhookStatus { code := some ("PAYMENT_ERROR") } = ("FAILED") ∧
    webhookStatus pPend = ("PENDING") ∧
    (lookupOrder (webhookA [(("PES1"), { r0 with status := ("PENDING") })] pPend).store
      ("PES1")).map (fun x => x.status) = some ("PENDING") ∧
    webhookStatus006 pPend = ("FAILED") ∧
    webhookStatus003 pPend = ("FAILED") :=
  ⟨statusMapping_by_variant.1 _ (by decide),
   statusMapping_by_variant.2.1 _ (by decide) (by decide),
   statusMapping_by_variant.2.2.1 _ (by decide) (by decide),
   statusMapping_by_variant.2.2.2.1 _ pPend ("PES1") { r0 with status := ("PENDING") }
     (by decide) (by decide) (by decide) (by decide) (by decide),
   statusMapping_by_variant.2.2.2.2.1 _ (by decide),
   statusMapping_by_variant.2.2.2.2.2 _ (by decide)⟩

/-! Claim C4. -/

/-- Stability of the serverA webhook: a second delivery of the same payload
reproduces the response and the store of the first. -/
theorem webhookA_stable (s : OrderStore) (p : Payload) :
    webhookA (webhookA s p).store p = webhookA s p := by
  cases h : truthyS (extractOrderIdA p) with
  | false => simp [webhookA, h]
  | true =>
    cases h2 : lookupOrder s ((extractOrderIdA p).getD ("")) with
    | none => simp [webhookA, h, updateOrder, h2]
    | some r =>
      simp [webhookA, h, updateOrder, h2, lookup_setOrder_self, setOrder_setOrder]

/-- Deliveries after the first leave the store where the first left it. -/
theorem applyWebhookN_fixed (k : Nat) (s : OrderStore) (p : Payload) :
    applyWebhookN k (webhookA s p).store p = (webhookA s p).store := by
  induction k generalizing s with
  | zero => rfl
  | succ m ih =>
    show applyWebhookN m (webhookA (webhookA s p).store p).store p = _
    rw [webhookA_stable]
    exact ih s

/-- C4: webhook processing is idempotent — for every stored state and
every payload, delivering the same webhook N times (N at least 1) leaves
exactly the store (hence the persisted status) that one delivery leaves. -/
theorem webhookA_idempotent (n : Nat) (s : OrderStore) (p : Payload)
    (h : 1 ≤ n) :
    applyWebhookN n s p = (webhookA s p).store := by
  cases n with
  | zero => exact absurd h (by decide)
  | succ k => exact applyWebhookN_fixed k s p

/-- C4 witness: three deliveries of the delayed-failure payload to store0
end in the same store as one delivery. -/
theorem webhookA_idempotent_witness :
    1 ≤ 3 ∧ applyWebhookN 3 store0 pFail = (webhookA store0 pFail).store :=
  ⟨by decide, webhookA_idempotent 3 store0 pFail (by decide)⟩

/-! Claim C5. -/

/-- C5 counterexample: a webhook naming an order id with no stored record
is answered 500 — not 400 as the claim states — because the Firestore
update rejects and the catch block takes over; no record is created. -/
theorem webhookA_unknown_order_cx :
    (webhookA [] pUnk).httpStatus = 500 ∧
    (webhookA [] pUnk).httpStatus ≠ 400 ∧
    (webhookA [] pUnk).store = ([] : OrderStore) := by
  decide

/-- C5 amended: a webhook from which no order id can be extracted is
answered 400 with no state action; a webhook naming an order id the store
has no record of is answered 500 (the store's update operation fails and
the error path answers 500), also with no record created or updated. -/
theorem webhookA_unknown_order :
    (∀ (store : OrderStore) (p : Payload),
      truthyS (extractOrderIdA p) = false → webhookA store p = ⟨400, store⟩) ∧
    (∀ (store : OrderStore) (p : Payload) (oid : String),
      extractOrderIdA p = some oid → oid ≠ ("" : String) →
      lookupOrder store oid = none → webhookA store p = ⟨500, store⟩) :=
  ⟨webhookA_noid, webhookA_missing⟩

/-- C5 witness: a payload with no order id against store0, and the unknown
order id payload against the empty store. -/
theorem webhookA_unknown_order_witness :
    webhookA store0 ({} : Payload) = ⟨400, store0⟩ ∧
    webhookA [] pUnk = ⟨500, []⟩ :=
  ⟨webhookA_unknown_order.1 store0 {} (by decide),
   webhookA_unknown_order.2 [] pUnk ("PESX") (by decide) (by decide) (by decide)⟩

/-! Claim C6. -/

/-- C6 counterexample: the src/backend/server.js create-order handler
performs no validation — with total = 0 it still issues the pay call to
the provider and does not answer 400. -/
theorem createOrderBackend_no_validation_cx :
    (createOrderBackend 0 .err [] none 0 none none).providerCalled = true ∧
    (createOrderBackend 0 .err [] none 0 none none).httpStatus ≠ 400 := by
  decide

/-- C6 amended: in the serverA handler a missing or non-positive total is
rejected 400 synchronously with no provider call and no order record; in
the src/backend/server.js variant no validation exists and every request
issues a provider call, whatever its total. -/
theorem createOrder_validation :
    (∀ (now : ℤ) (provider : ProviderOutcome) (store : OrderStore) (req : CreateReq),
      truthyQ req.total = false ∨ req.total.getD 0 ≤ 0 →
      createOrderA now provider store req = ⟨400, false, none, store, none⟩) ∧
    (∀ (now : ℤ) (provider : ProviderOutcome) (store : OrderStore)
      (items : Option (List String)) (total : ℚ) (table sessionId : Option String),
      (createOrderBackend now provider store items total table sessionId).providerCalled
        = true) := by
  constructor
  · intro now provider store req h
    have hg : (!req.items.isSome || !truthyQ req.total
        || decide (req.total.getD 0 ≤ 0)) = true := by
      rcases h with h | h
      · simp [h]
      · simp [h]
    unfold createOrderA
    rw [if_pos hg]
  · intro now provider store items total table sessionId
    cases provider <;> simp [createOrderBackend]

/-- C6 witness: a request with total 0 is rejected 400 by serverA with no
provider call, while the backend variant calls the provider on the same
total. -/
theorem createOrder_validation_witness :
    createOrderA 0 .err [] { items := some [], total := some 0 }
      = ⟨400, false, none, [], none⟩ ∧
    (createOrderBackend 0 .err [] none 0 none none).providerCalled = true :=
  ⟨createOrder_validation.1 0 .err [] { items := some [], total := some 0 }
     (Or.inl (by decide)),
   createOrder_validation.2 0 .err [] none 0 none none⟩

/-! Claim C7. -/

/-- Evaluation of the serverA create-order on a valid request whose pay
call answers a checkout URL. -/
theorem createOrderA_ok (now : ℤ) (u : String) (store : OrderStore)
    (req : CreateReq) (t : ℚ) (h1 : req.items.isSome = true)
    (h2 : req.total = some t) (h3 : (0 : ℚ) < t) :
    createOrderA now (.ok ⟨some u⟩) store req =
      ⟨200, true, some (jsRound (t * 100)),
       setOrder store (("PES") ++ toString now)
         { merchantOrderId := ("PES") ++ toString now, items := req.items,
           table := req.table, sessionId := req.sessionId, amount := t,
           status := ("PENDING"), phonepeCallback := none },
       some (("PES") ++ toString now)⟩ := by
  have ht0 : (t == (0 : ℚ)) = false := by simpa using h3.ne'
  have hle : (decide (t ≤ (0 : ℚ))) = false := by simpa using not_le.mpr h3
  have hg : ¬ ((!req.items.isSome || !truthyQ req.total
      || decide (req.total.getD 0 ≤ 0)) = true) := by
    simp [h1, h2, truthyQ, ht0, hle]
  unfold createOrderA
  rw [if_neg hg]
  simp [h2]

/-- Successful path of the serverA create-order: whenever it is answered
200, the requested total was a positive number and the record persisted
under the answered order id has amount equal to that total and status
PENDING. -/
theorem createOrderA_initial_pending (now : ℤ) (provider : ProviderOutcome)
    (store : OrderStore) (req : CreateReq)
    (h : (createOrderA now provider store req).httpStatus = 200) :
    ∃ t, req.total = some t ∧ 0 < t ∧
      (createOrderA now provider store req).orderId
        = some (("PES") ++ toString now) ∧
      (lookupOrder (createOrderA now provider store req).store
          (("PES") ++ toString now)).map (fun r => (r.amount, r.status))
        = some (t, ("PENDING")) := by
  by_cases hg : (!req.items.isSome || !truthyQ req.total
      || decide (req.total.getD 0 ≤ 0)) = true
  · unfold createOrderA at h
    rw [if_pos hg] at h
    simp at h
  · have hb : (¬ req.items = none ∧ truthyQ req.total = true)
        ∧ 0 < req.total.getD 0 := by
      simpa using hg
    obtain ⟨⟨hi0, htq⟩, hpos0⟩ := hb
    have hi : req.items.isSome = true := by
      cases hq : req.items with
      | none => exact absurd hq hi0
      | some x => rfl
    obtain ⟨t, h2⟩ : ∃ t, req.total = some t := by
      cases hq : req.total with
      | none => rw [hq] at htq; exact absurd htq (by decide)
      | some t => exact ⟨t, rfl⟩
    have htpos : (0 : ℚ) < t := by
      rw [h2] at hpos0
      simpa using hpos0
    cases provider with
    | err =>
      unfold createOrderA at h
      rw [if_neg hg] at h
      simp at h
    | ok resp =>
      obtain ⟨cu⟩ := resp
      cases hc : cu with
      | none =>
        subst hc
        unfold createOrderA at h
        rw [if_neg hg] at h
        simp at h
      | some u =>
        subst hc
        refine ⟨t, h2, htpos, ?_, ?_⟩
        · rw [createOrderA_ok now u store req t hi h2 htpos]
        · rw [createOrderA_ok now u store req t hi h2 htpos]
          rw [lookup_setOrder_self]
          rfl

/-- C7 counterexample: on the successful-creation path of the
src/backend/server.js handler (provider answered, handler answers 200)
the record persisted under the new order id has status "created" — not
PENDING as the claim states for every successfully created order. -/
theorem createOrderBackend_created_status_cx :
    (createOrderBackend 0 (.ok ⟨some ("u")⟩) [] (some []) 150 none none).httpStatus
      = 200 ∧
    (lookupOrder (createOrderBackend 0 (.ok ⟨some ("u")⟩) [] (some []) 150
        none none).store (("PES-") ++ toString (0 : ℤ))).map (fun r => r.status)
      = some ("created") ∧
    some ("created") ≠ some (("PENDING") : String) := by
  decide

/-- C7 amended: every successfully created order is persisted with amount
equal to the requested total; its initial status is PENDING in the serverA
handler (whenever it answers 200, the total was a positive number and the
record under the answered order id has amount equal to it and status
PENDING), while the src/backend/server.js variant persists the record
with amount equal to the total but with initial status "created" instead
of PENDING. -/
theorem createOrder_persisted_status :
    (∀ (now : ℤ) (provider : ProviderOutcome) (store : OrderStore) (req : CreateReq),
      (createOrderA now provider store req).httpStatus = 200 →
      ∃ t, req.total = some t ∧ 0 < t ∧
        (createOrderA now provider store req).orderId
          = some (("PES") ++ toString now) ∧
        (lookupOrder (createOrderA now provider store req).store
            (("PES") ++ toString now)).map (fun r => (r.amount, r.status))
          = some (t, ("PENDING"))) ∧
    (∀ (now : ℤ) (resp : ProviderResp) (store : OrderStore)
      (items : Option (List String)) (total : ℚ) (table sessionId : Option String),
      (createOrderBackend now (.ok resp) store items total table sessionId).httpStatus
        = 200 ∧
      (lookupOrder (createOrderBackend now (.ok resp) store items total table
          sessionId).store (("PES-") ++ toString now)).map
        (fun r => (r.amount, r.status)) = some (total, ("created"))) := by
  constructor
  · exact createOrderA_initial_pending
  · intro now resp store items total table sessionId
    refine ⟨rfl, ?_⟩
    simp [createOrderBackend, lookup_setOrder_self]

/-- C7 witness: scenario A on serverA — a create-order with total 150 and
a provider checkout URL is answered 200 and persists amount 150 with
status PENDING — next to the backend variant persisting amount 150 with
status "created". -/
theorem createOrder_persisted_status_witness :
    (∃ t, ({ items := some [], total := some 150 } : CreateReq).total = some t ∧
      0 < t ∧
      (createOrderA 1 (.ok ⟨some ("u")⟩) []
        { items := some [], total := some 150 }).orderId
        = some (("PES") ++ toString (1 : ℤ)) ∧
      (lookupOrder (createOrderA 1 (.ok ⟨some ("u")⟩) []
          { items := some [], total := some 150 }).store
          (("PES") ++ toString (1 : ℤ))).map (fun r => (r.amount, r.status))
        = some (t, ("PENDING"))) ∧
    ((createOrderBackend 0 (.ok ⟨some ("u")⟩) [] (some []) 150 none none).httpStatus
        = 200 ∧
      (lookupOrder (createOrderBackend 0 (.ok ⟨some ("u")⟩) [] (some []) 150
          none none).store (("PES-") ++ toString (0 : ℤ))).map
        (fun r => (r.amount, r.status)) = some (150, ("created"))) :=
  ⟨createOrder_persisted_status.1 1 (.ok ⟨some ("u")⟩) []
     { items := some [], total := some 150 }
     (by rw [createOrderA_ok 1 ("u") [] { items := some [], total := some 150 }
       150 rfl rfl (by norm_num)]),
   createOrder_persisted_status.2 0 ⟨some ("u")⟩ [] (some []) 150 none none⟩

/-! Claim C8. -/

/-- C8 counterexample: the first getAccessToken of src/server.js stores,
after a refresh reporting expires_in 3600, the expiry now + 3600 * 1000
with no safety margin — not the claimed conservative value reduced by 60
seconds. -/
theorem getAccessTokenA_no_margin_cx :
    (getAccessTokenA ⟨none, none⟩ 0 (.ok ⟨("t"), some 3600⟩)).networkCall = true ∧
    (getAccessTokenA ⟨none, none⟩ 0 (.ok ⟨("t"), some 3600⟩)).cache.tokenExpiry
      = some 3600000 ∧
    (3600000 : ℤ) ≠ 0 + 3600 * 1000 - 60000 := by
  decide

/-- C8 amended: both getAccessToken variants return the cached token with
no network call whenever the cache is valid (token cached and now before
the stored expiry); on a miss a credential exchange is issued and the
serverB variant stores the expiry reduced by the 60 second safety margin,
while the serverA variant (src/server.js lines 104-126) stores
now + expires_in * 1000 with no margin. -/
theorem getAccessToken_cache_contract :
    (∀ (c : TokenCache) (now : ℤ) (auth : AuthOutcome), cacheValid c now = true →
      getAccessTokenA c now auth = ⟨c.accessToken, c, false⟩ ∧
      getAccessTokenB c now auth = ⟨c.accessToken, c, false⟩) ∧
    (∀ (c : TokenCache) (now : ℤ) (tok : String) (ei : ℤ),
      cacheValid c now = false → tok ≠ ("" : String) → truthyZ (some ei) = true →
      getAccessTokenB c now (.ok ⟨tok, some ei⟩)
        = ⟨some tok, ⟨some tok, some (now + ei * 1000 - 60000)⟩, true⟩ ∧
      getAccessTokenA c now (.ok ⟨tok, some ei⟩)
        = ⟨some tok, ⟨some tok, some (now + ei * 1000)⟩, true⟩) := by
  constructor
  · intro c now auth h
    constructor <;> simp [getAccessTokenA, getAccessTokenB, h]
  · intro c now tok ei h htok hei
    have hb : (tok == ("" : String)) = false := by simpa using htok
    constructor <;> simp [getAccessTokenA, getAccessTokenB, h, hb, jsOrZ, hei]

/-- C8 witness: a valid cache at now 5 answers the cached token with no
network call, and a refresh from the empty cache at now 0 with expires_in
3600 stores expiry 3540000 in serverB and 3600000 in serverA. -/
theorem getAccessToken_cache_contract_witness :
    getAccessTokenA ⟨some ("t"), some 10⟩ 5 .err
      = ⟨some ("t"), ⟨some ("t"), some 10⟩, false⟩ ∧
    getAccessTokenB ⟨none, none⟩ 0 (.ok ⟨("t"), some 3600⟩)
      = ⟨some ("t"), ⟨some ("t"), some 3540000⟩, true⟩ ∧
    getAccessTokenA ⟨none, none⟩ 0 (.ok ⟨("t"), some 3600⟩)
      = ⟨some ("t"), ⟨some ("t"), some 3600000⟩, true⟩ :=
  ⟨(getAccessToken_cache_contract.1 ⟨some ("t"), some 10⟩ 5 .err (by decide)).1,
   (getAccessToken_cache_contract.2 ⟨none, none⟩ 0 ("t") 3600 (by decide)
     (by decide) (by decide)).1,
   (getAccessToken_cache_contract.2 ⟨none, none⟩ 0 ("t") 3600 (by decide)
     (by decide) (by decide)).2⟩

/-! Claim C9. -/

/-- C9 counterexample: two concurrent callers with no cached token,
interleaved so that each runs its cache check before either response
arrives, issue two credential-exchange calls — not exactly one as the
claim states — and both still obtain the token. -/
theorem token_refresh_two_exchanges_cx :
    (runSched 0 ⟨("tok"), some 3600⟩ [false, true, false, true]
      twoCallerInit).networkCalls = 2 ∧
    (runSched 0 ⟨("tok"), some 3600⟩ [false, true, false, true]
      twoCallerInit).networkCalls ≠ 1 ∧
    (runSched 0 ⟨("tok"), some 3600⟩ [false, true, false, true]
      twoCallerInit).pc0 = .done ("tok") ∧
    (runSched 0 ⟨("tok"), some 3600⟩ [false, true, false, true]
      twoCallerInit).pc1 = .done ("tok") := by
  decide

/-- Each step never lowers the count of issued exchanges. -/
theorem stepCaller_calls_le (now : ℤ) (resp : AuthResp) (pc : CallerPC)
    (cache : TokenCache) (calls : Nat) :
    calls ≤ (stepCaller now resp pc cache calls).2.2 := by
  cases pc with
  | start =>
    by_cases h : cacheValid cache now = true
    · simp [stepCaller, h]
    · simp [stepCaller, h]
  | awaiting => simp [stepCaller]
  | done t => simp [stepCaller]

/-- Running a schedule never lowers the count of issued exchanges. -/
theorem runSched_calls_mono (now : ℤ) (resp : AuthResp) (sched : List Bool)
    (s : TwoCallerState) :
    s.networkCalls ≤ (runSched now resp sched s).networkCalls := by
  induction sched generalizing s with
  | nil => exact Nat.le_refl _
  | cons b rest ih =>
    cases b with
    | false =>
      exact le_trans (stepCaller_calls_le now resp s.pc0 s.cache s.networkCalls)
        (ih ⟨(stepCaller now resp s.pc0 s.cache s.networkCalls).2.1,
             (stepCaller now resp s.pc0 s.cache s.networkCalls).1, s.pc1,
             (stepCaller now resp s.pc0 s.cache s.networkCalls).2.2⟩)
    | true =>
      exact le_trans (stepCaller_calls_le now resp s.pc1 s.cache s.networkCalls)
        (ih ⟨(stepCaller now resp s.pc1 s.cache s.networkCalls).2.1, s.pc0,
             (stepCaller now resp s.pc1 s.cache s.networkCalls).1,
             (stepCaller now resp s.pc1 s.cache s.networkCalls).2.2⟩)

/-- C9 amended: the token cache has no single-flight coalescing — in every
interleaving where both concurrent callers run their cache check (finding
no token) before either exchange response is delivered, each caller issues
its own credential-exchange call, so at least two exchanges reach the
auth endpoint instead of one. -/
theorem token_refresh_not_single_flight (now : ℤ) (resp : AuthResp)
    (rest : List Bool) :
    2 ≤ (runSched now resp (false :: true :: rest) twoCallerInit).networkCalls := by
  have h : runSched now resp (false :: true :: rest) twoCallerInit
      = runSched now resp rest ⟨⟨none, none⟩, .awaiting, .awaiting, 2⟩ := rfl
  rw [h]
  exact runSched_calls_mono now resp rest ⟨⟨none, none⟩, .awaiting, .awaiting, 2⟩

/-! Claim C10. -/

/-- C10: the amount sent to the provider is Math.round(total * 100), so a
total of 0.004 — a positive number that passes the serverA validation and
leads to a 200 response — reaches the provider boundary as 0 minor units:
positivity of the validated total does not imply a positive amountPaise. -/
theorem amountPaise_zero_for_small_total :
    (0 : ℚ) < 1/250 ∧
    (createOrderA 7 (.ok ⟨some ("u")⟩) []
      { items := some [], total := some (1/250) }).httpStatus = 200 ∧
    (createOrderA 7 (.ok ⟨some ("u")⟩) []
      { items := some [], total := some (1/250) }).providerCalled = true ∧
    (createOrderA 7 (.ok ⟨some ("u")⟩) []
      { items := some [], total := some (1/250) }).amountSent = some 0 := by
  have he := createOrderA_ok 7 ("u") [] { items := some [], total := some (1/250) }
    (1/250) rfl rfl (by norm_num)
  refine ⟨by norm_num, ?_, ?_, ?_⟩
  · rw [he]
  · rw [he]
  · rw [he]
    show some (jsRound ((1/250 : ℚ) * 100)) = some 0
    have hz : jsRound ((1/250 : ℚ) * 100) = 0 := by
      unfold jsRound
      norm_num
    rw [hz]

end Pes
